import Mathlib

/-
Verification of the storage abstraction and SQL session lifecycle layer of a
FastAPI backend-service template.

The embedded code lives in:
  src/shared/services/file_storage.py        (content addresser, upload_file)
  src/shared/services/local_file_storage.py  (local filesystem backend)
  src/shared/services/s3_file_storage.py     (S3 backend)
  src/shared/services/gcs_file_storage.py    (GCS backend)
  src/shared/services/sftp_file_storage.py   (SFTP backend)
  src/shared/services/sql_db.py              (relational session manager)

Modelling conventions:
  - bytes are Nat values, reduced mod 256 where the code treats them as bytes;
  - a storage backend (local directory, S3 bucket, GCS bucket, SFTP tree) is a
    finite association list from path strings to byte lists;
  - Python exceptions become Except results; the oracle flags passed to each
    operation say which external I/O calls fail on this run;
  - tenacity retry decorators become explicit attempt traces: a list or
    function giving the outcome of each successive attempt.
-/

namespace PyFastapiTemplate

/-- Python str.lstrip with a dot argument: drop every leading dot character. -/
def lstripDots (s : String) : String :=
  ⟨s.data.dropWhile (fun c => c = '.')⟩

/-- Python slice s[a:b] on a string (total, clamping like Python slices). -/
def pySlice (s : String) (a b : Nat) : String :=
  ⟨(s.data.drop a).take (b - a)⟩

/-- Pathlib joining of a root with a relative storage path, rendered as a
posix string: an absolute right operand replaces the root, an empty root is
the current directory. -/
def pathJoin (root rel : String) : String :=
  match rel.data with
  | '/' :: _ => rel
  | _ => if root = "" then rel else root ++ "/" ++ rel

/-- A storage backend's contents: path to byte-content association list. -/
abbrev Store := List (String × List Nat)

/-- Appending the empty string on the right is the identity. -/
lemma strAppend_empty (a : String) : a ++ "" = a := by
  cases a with
  | mk l => show String.mk (l ++ []) = String.mk l
            rw [List.append_nil]

/- ----------------------------------------------------------------- -/
/- Content addresser: shared/services/file_storage.py                -/
/- ----------------------------------------------------------------- -/

namespace FileStorageService

/-- The 32-bit mask used to keep MD5 word arithmetic in range. -/
def mask32 : Nat := 4294967295

/-- Bitwise complement of a 32-bit word. -/
def notw (x : Nat) : Nat := x ^^^ mask32

/-- Left rotation of a 32-bit word by r bits. -/
def rotl (w r : Nat) : Nat :=
  ((w <<< r) ||| (w >>> (32 - r))) % 4294967296

/-- MD5 per-round shift amounts (RFC 1321). -/
def md5S : List Nat :=
  [7, 12, 17, 22, 7, 12, 17, 22, 7, 12, 17, 22, 7, 12, 17, 22,
   5, 9, 14, 20, 5, 9, 14, 20, 5, 9, 14, 20, 5, 9, 14, 20,
   4, 11, 16, 23, 4, 11, 16, 23, 4, 11, 16, 23, 4, 11, 16, 23,
   6, 10, 15, 21, 6, 10, 15, 21, 6, 10, 15, 21, 6, 10, 15, 21]

/-- MD5 sine-derived additive constants (RFC 1321). -/
def md5K : List Nat :=
  [3614090360, 3905402710, 606105819, 3250441966, 4118548399, 1200080426,
   2821735955, 4249261313, 1770035416, 2336552879, 4294925233, 2304563134,
   1804603682, 4254626195, 2792965006, 1236535329, 4129170786, 3225465664,
   643717713, 3921069994, 3593408605, 38016083, 3634488961, 3889429448,
   568446438, 3275163606, 4107603335, 1163531501, 2850285829, 4243563512,
   1735328473, 2368359562, 4294588738, 2272392833, 1839030562, 4259657740,
   2763975236, 1272893353, 4139469664, 3200236656, 681279174, 3936430074,
   3572445317, 76029189, 3654602809, 3873151461, 530742520, 3299628645,
   4096336452, 1126891415, 2878612391, 4237533241, 1700485571, 2399980690,
   4293915773, 2240044497, 1873313359, 4264355552, 2734768916, 1309151649,
   4149444226, 3174756917, 718787259, 3951481745]

/-- Little-endian 32-bit word from up to four bytes. -/
def leWord (bs : List Nat) : Nat :=
  bs.foldr (fun b acc => b % 256 + 256 * acc) 0

/-- Serialize a 32-bit word to four little-endian bytes. -/
def w32le (w : Nat) : List Nat :=
  [w % 256, w / 256 % 256, w / 65536 % 256, w / 16777216 % 256]

/-- Serialize a 64-bit word to eight little-endian bytes. -/
def w64le (w : Nat) : List Nat :=
  [w % 256, w / 2 ^ 8 % 256, w / 2 ^ 16 % 256, w / 2 ^ 24 % 256,
   w / 2 ^ 32 % 256, w / 2 ^ 40 % 256, w / 2 ^ 48 % 256, w / 2 ^ 56 % 256]

/-- MD5 padding: a 0x80 byte, zeros up to 56 mod 64, then the bit length. -/
def md5Pad (msg : List Nat) : List Nat :=
  let m := msg.map (fun b => b % 256)
  m ++ 128 :: List.replicate ((119 - m.length % 64) % 64) 0
    ++ w64le (m.length * 8 % 2 ^ 64)

/-- Split a byte list into 64-byte chunks. -/
def chunks64 : List Nat → List (List Nat)
  | [] => []
  | b :: t => (b :: t).take 64 :: chunks64 ((b :: t).drop 64)
termination_by l => l.length
decreasing_by
  simp only [List.length_drop]
  exact Nat.sub_lt (List.length_pos.mpr (by simp)) (by decide)

/-- One MD5 round: update the (a, b, c, d) quadruple at round index i using
the message-word accessor m. -/
def md5Round (m : Nat → Nat) (q : Nat × Nat × Nat × Nat) (i : Nat) :
    Nat × Nat × Nat × Nat :=
  let a := q.1
  let b := q.2.1
  let c := q.2.2.1
  let d := q.2.2.2
  let fg : Nat × Nat :=
    if i < 16 then ((b &&& c) ||| (notw b &&& d), i)
    else if i < 32 then ((d &&& b) ||| (notw d &&& c), (5 * i + 1) % 16)
    else if i < 48 then (b ^^^ c ^^^ d, (3 * i + 5) % 16)
    else (c ^^^ (b ||| notw d), 7 * i % 16)
  let f := (fg.1 + a + md5K.getD i 0 + m fg.2) % 4294967296
  (d, (b + rotl f (md5S.getD i 0)) % 4294967296, b, c)

/-- The running MD5 state: four 32-bit words. -/
structure MD5State where
  a : Nat
  b : Nat
  c : Nat
  d : Nat
deriving Repr, DecidableEq

/-- The MD5 initialization vector. -/
def md5Init : MD5State :=
  ⟨1732584193, 4023233417, 2562383102, 271733878⟩

/-- Process one 64-byte chunk into the running state. -/
def md5Chunk (st : MD5State) (chunk : List Nat) : MD5State :=
  let m := fun g => leWord ((chunk.drop (4 * g)).take 4)
  let r := (List.range 64).foldl (md5Round m) (st.a, st.b, st.c, st.d)
  ⟨(st.a + r.1) % 4294967296, (st.b + r.2.1) % 4294967296,
   (st.c + r.2.2.1) % 4294967296, (st.d + r.2.2.2) % 4294967296⟩

/-- The 16-byte MD5 digest of a byte sequence. -/
def md5 (msg : List Nat) : List Nat :=
  let st := (chunks64 (md5Pad msg)).foldl md5Chunk md5Init
  w32le st.a ++ w32le st.b ++ w32le st.c ++ w32le st.d

/-- Boolean test for a lowercase hexadecimal digit character: an ASCII
decimal digit or one of the first six lowercase letters. -/
def isHexDigitChar (c : Char) : Bool :=
  (48 ≤ c.toNat && c.toNat ≤ 57) || (97 ≤ c.toNat && c.toNat ≤ 102)

/-- One hex digit character for a value reduced mod 16: ASCII digits for 0
to 9, lowercase letters for 10 to 15. -/
def hexChar (n : Nat) : Char :=
  if n % 16 < 10 then Char.ofNat (48 + n % 16) else Char.ofNat (87 + n % 16)

/-- Two lowercase hex characters for one byte. -/
def byteHex (b : Nat) : List Char := [hexChar (b / 16), hexChar b]

/-- compute_file_id (file_storage.py lines 10 to 14): the MD5 hex digest of
the file content, as produced by hashlib md5 hexdigest. -/
def compute_file_id (file : List Nat) : String :=
  ⟨(md5 file).flatMap byteHex⟩

/-- get_storage_path (file_storage.py lines 16 to 39): two three-character
shard directories from the head of the id, then the full id, then a dot plus
the extension with leading dots stripped; the Python truthiness test on the
extension means both None and the empty string produce no suffix. -/
def get_storage_path (file_id : String) (extension : Option String) : String :=
  let ext := match extension with
    | some e => if e = "" then "" else "." ++ lstripDots e
    | none => ""
  pySlice file_id 0 3 ++ "/" ++ pySlice file_id 3 6 ++ "/" ++ file_id ++ ext

end FileStorageService

/-- upload_file (file_storage.py lines 51 to 53): computes the content id,
awaits upload_file_with_id on it, and then falls off the end of the function
body, so the awaited boolean is discarded and Python returns None (modelled
as the first component none); an exception from the underlying call
propagates. The impl argument is the concrete backend's upload_file_with_id
bound to its configuration and current store. -/
def FileStorageService.upload_file {σ : Type}
    (impl : String → List Nat → Option String → Except Unit (Bool × σ))
    (file : List Nat) (extension : Option String) :
    Except Unit (Option Bool × σ) :=
  match impl (FileStorageService.compute_file_id file) file extension with
  | Except.error e => Except.error e
  | Except.ok (_, s) => Except.ok (none, s)

/-- Outcome trace of a tenacity-retried connection routine: entry i is true
when attempt i + 1 succeeds. The storage services decorate connection setup
with retry stop_after_attempt 5 and exponential backoff (multiplier 1, min 1,
max 10 seconds); attempts stop at the first success, and five failures make
the decorated call raise instead. -/
def connectionEstablished (trace : List Bool) : Bool :=
  (trace.take 5).any id

/- ----------------------------------------------------------------- -/
/- Local filesystem backend: shared/services/local_file_storage.py   -/
/- ----------------------------------------------------------------- -/

namespace LocalFileStorageService

/-- upload_file_with_id (local_file_storage.py lines 16 to 36). The mkdir
call on line 20 runs outside any try block, so a directory-creation OSError
(flag mkdirRaises) propagates; the existence check on line 24 returns False
without writing; open or write errors (flag writeRaises, the OSError and
ValueError arms of line 31) are caught and become False; otherwise the
content is written at the joined path and the call returns True. -/
def upload_file_with_id (mkdirRaises writeRaises : Bool) (root : String)
    (store : Store) (file_id : String) (file : List Nat)
    (extension : Option String) : Except Unit (Bool × Store) :=
  let path := pathJoin root (FileStorageService.get_storage_path file_id extension)
  if mkdirRaises then Except.error ()
  else if (store.lookup path).isSome then Except.ok (false, store)
  else if writeRaises then Except.ok (false, store)
  else Except.ok (true, (path, file) :: store)

/-- exists (local_file_storage.py lines 38 to 41): a pure stat on the joined
path; no exception and no state change. -/
def fileExists (root : String) (store : Store) (storage_path : String) : Bool :=
  (store.lookup (pathJoin root storage_path)).isSome

end LocalFileStorageService

/- ----------------------------------------------------------------- -/
/- S3 backend: shared/services/s3_file_storage.py                    -/
/- ----------------------------------------------------------------- -/

namespace S3FileStorageService

/-- upload_file_with_id (s3_file_storage.py lines 60 to 82). get_client is
retried five times by tenacity; when every attempt fails the decorated call
raises a tenacity RetryError, which is not a botocore error and therefore
escapes the except clause on line 80. With a client, a botocore error from
list_objects_v2 (flag listRaises) or put_object (flag putRaises) is caught
and becomes False; an existing object at the exact key becomes False without
writing; otherwise the object is written and the call returns True. -/
def upload_file_with_id (connTrace : List Bool) (listRaises putRaises : Bool)
    (root : String) (store : Store) (file_id : String) (file : List Nat)
    (extension : Option String) : Except Unit (Bool × Store) :=
  let path := pathJoin root (FileStorageService.get_storage_path file_id extension)
  if !connectionEstablished connTrace then Except.error ()
  else if listRaises then Except.ok (false, store)
  else if (store.lookup path).isSome then Except.ok (false, store)
  else if putRaises then Except.ok (false, store)
  else Except.ok (true, (path, file) :: store)

end S3FileStorageService

/- ----------------------------------------------------------------- -/
/- GCS backend: shared/services/gcs_file_storage.py                  -/
/- ----------------------------------------------------------------- -/

namespace GCSFileStorageService

/-- upload_file_with_id (gcs_file_storage.py lines 60 to 88). The
ensure_connection call on line 65 runs outside the try block, so a
connection failure exhausting its five tenacity attempts propagates. Inside
the try block, an error from the blob existence check (flag existsRaises) or
the upload (flag uploadRaises) is caught by the bare except and becomes
False; an existing blob becomes False without writing; otherwise the blob is
written and the call returns True. -/
def upload_file_with_id (connTrace : List Bool) (existsRaises uploadRaises : Bool)
    (root : String) (store : Store) (file_id : String) (file : List Nat)
    (extension : Option String) : Except Unit (Bool × Store) :=
  if !connectionEstablished connTrace then Except.error ()
  else
    let path := pathJoin root (FileStorageService.get_storage_path file_id extension)
    if existsRaises then Except.ok (false, store)
    else if (store.lookup path).isSome then Except.ok (false, store)
    else if uploadRaises then Except.ok (false, store)
    else Except.ok (true, (path, file) :: store)

end GCSFileStorageService

/- ----------------------------------------------------------------- -/
/- SFTP backend: shared/services/sftp_file_storage.py                -/
/- ----------------------------------------------------------------- -/

namespace SFTPFileStorageService

/-- upload_file_with_id (sftp_file_storage.py lines 62 to 99). The
ensure_connection call on line 66 runs outside any try block, so a
connection failure exhausting its five tenacity attempts propagates. Line 72
then tests the coroutine object returned by the un-awaited async method
self.exists; a coroutine object is always truthy, so the branch is always
taken: the service logs that the file already exists and returns False,
never reaching the directory-creation and write code below. -/
def upload_file_with_id (connTrace : List Bool) (store : Store)
    (file_id : String) (file : List Nat) (extension : Option String) :
    Except Unit (Bool × Store) :=
  if !connectionEstablished connTrace then Except.error ()
  else Except.ok (false, store)

end SFTPFileStorageService

/- ----------------------------------------------------------------- -/
/- Relational session manager: shared/services/sql_db.py             -/
/- ----------------------------------------------------------------- -/

/-- Substring containment of the pattern (second list) in the haystack at its
head position. -/
def matchesAt : List Char → List Char → Bool
  | [], _ => true
  | _ :: _, [] => false
  | p :: ps, h :: hs => p == h && matchesAt ps hs

/-- Substring containment anywhere in the haystack (first argument), the
Python membership test on strings. -/
def listHasSub : List Char → List Char → Bool
  | [], pat => pat.isEmpty
  | h :: t, pat => matchesAt pat (h :: t) || listHasSub t pat

/-- Python substring membership test pat in hay. -/
def strContains (hay pat : String) : Bool := listHasSub hay.data pat.data

/-- The exceptions a database operation can raise, as classified by
sql_db.py: sqlalchemy OperationalError, OSError, DBAPIError carrying its
rendered message, and anything else. -/
inductive DBError where
  | operational : DBError
  | os : DBError
  | dbapi : String → DBError
  | other : DBError
deriving Repr, DecidableEq

namespace SQLDatabaseService

/-- should_retry_on_exception (sql_db.py lines 67 to 79): retry on
OperationalError and OSError, and on DBAPIError whose message mentions the
two pgbouncer prepared-statement failures; everything else is not retried. -/
def should_retry_on_exception : DBError → Bool
  | DBError.operational => true
  | DBError.os => true
  | DBError.dbapi msg =>
      strContains msg "DuplicatePreparedStatementError"
        || strContains msg "InvalidSQLStatementNameError"
  | DBError.other => false

/-- The retry loop of the tenacity decorator built on lines 82 to 87 of
sql_db.py, with reraise true: f gives the outcome of each whole-body attempt
(a full replay including reconnect), n counts the retries still allowed
after the current attempt, i is the current attempt index. A success
returns; with retries left, a retryable error triggers the next attempt and
any other error is raised; with no retries left the outcome of the final
attempt is surfaced as is. -/
def retryGo {α : Type} (f : Nat → Except DBError α) : Nat → Nat → Except DBError α
  | 0, i => f i
  | n + 1, i =>
    match f i with
    | Except.ok a => Except.ok a
    | Except.error e =>
        if should_retry_on_exception e then retryGo f n (i + 1)
        else Except.error e

/-- retry_on_db_errors (sql_db.py lines 82 to 87): tenacity retry with
reraise, stop_after_attempt 5, exponential backoff wait (multiplier 1, min
1, max 10 seconds) and the retry predicate above. It decorates execute (line
274), add (304), add_all (309), delete (314), commit (319), rollback (324)
and refresh (329); each decorated method body reconnects and replays in
full on every attempt. -/
def retry_on_db_errors {α : Type} (f : Nat → Except DBError α) : Except DBError α :=
  retryGo f 4 0

/-- The SQLAlchemy engine construction arguments the service fills in
(sql_db.py lines 135 to 143). -/
structure EngineArgs where
  pool_size : Nat
  max_overflow : Nat
  pool_pre_ping : Bool
  pool_recycle : Nat
deriving Repr, DecidableEq

/-- The engine-argument filling of init (sql_db.py lines 135 to 143): each
field keeps a caller-supplied value and otherwise gets the default bounded
pool configuration: pool size 5, no overflow, pre-ping on, recycle every 900
seconds. -/
def initEngineArgs (ps mo : Option Nat) (pp : Option Bool) (pr : Option Nat) :
    EngineArgs :=
  ⟨ps.getD 5, mo.getD 0, pp.getD true, pr.getD 900⟩

/-- Per-instance runtime state of one SQLDatabaseService: the configured
engine arguments, the engine (recorded with the arguments it was built
from, none before the first build, sql_db.py line 132), and whether the
session factory exists (line 133). The session slot is deliberately not
here: it lives in the class-level context variable, modelled by TaskCtx. -/
structure SqlInstance where
  args : EngineArgs
  engine : Option EngineArgs
  hasMaker : Bool
deriving Repr, DecidableEq

/-- The state a logical task sees through the class attribute session_ctx
(sql_db.py line 128, a single ContextVar created once at class definition
and shared by every instance and subclass): the current session slot, the
ids of sessions that have been closed, and a counter providing fresh
session identities. -/
structure TaskCtx where
  session : Option Nat
  closed : List Nat
  nextId : Nat
deriving Repr, DecidableEq

/-- Store a freshly created session in the scope-local slot. -/
def mkSession (ctx : TaskCtx) : TaskCtx :=
  { ctx with session := some ctx.nextId, nextId := ctx.nextId + 1 }

/-- Result of connect: whether it raised, plus the instance and task state
after the call (Python instance attributes mutated before an exception keep
their new values). -/
structure ConnectResult where
  raised : Bool
  inst : SqlInstance
  ctx : TaskCtx
deriving Repr, DecidableEq

/-- connect (sql_db.py lines 181 to 208). If the scope already holds a
session the call returns at once. Otherwise, when the engine or the session
factory is missing, both are built from the stored engine arguments (an
engine-creation failure, flag engineOk false, is logged and re-raised with
no assignment made). With the engine present a new session is created and
stored in the scope slot; a session-creation failure (flag sessionOk false)
is logged and re-raised, after the engine assignment has already stuck. -/
def connect (engineOk sessionOk : Bool) (inst : SqlInstance) (ctx : TaskCtx) :
    ConnectResult :=
  if ctx.session.isSome then ⟨false, inst, ctx⟩
  else if inst.engine.isNone || !inst.hasMaker then
    if !engineOk then ⟨true, inst, ctx⟩
    else
      let inst' : SqlInstance := { inst with engine := some inst.args, hasMaker := true }
      if sessionOk then ⟨false, inst', mkSession ctx⟩
      else ⟨true, inst', ctx⟩
  else
    if sessionOk then ⟨false, inst, mkSession ctx⟩
    else ⟨true, inst, ctx⟩

/-- get_session (sql_db.py lines 247 to 251): reads the class-level context
variable; the instance receiving the call plays no role in the value. -/
def get_session (self : SqlInstance) (ctx : TaskCtx) : Option Nat :=
  ctx.session

/-- disconnect_session (sql_db.py lines 227 to 234): when the scope slot
holds a session, close it and clear the slot; otherwise do nothing. The
engine and session factory are never touched. -/
def disconnect_session (ctx : TaskCtx) : TaskCtx :=
  match ctx.session with
  | none => ctx
  | some sid => { ctx with session := none, closed := sid :: ctx.closed }

/-- aexit (sql_db.py lines 173 to 179): the async context exit ignores the
exception information (exc carries whether the scope exited with an error)
and always calls disconnect_session; the instance state is untouched. -/
def aexit (exc : Option Unit) (inst : SqlInstance) (ctx : TaskCtx) :
    SqlInstance × TaskCtx :=
  (inst, disconnect_session ctx)

end SQLDatabaseService

/- ----------------------------------------------------------------- -/
/- Shared helper lemmas                                              -/
/- ----------------------------------------------------------------- -/

namespace FileStorageService

/-- Each byte contributes exactly two hex characters. -/
lemma length_flatMap_byteHex (bs : List Nat) :
    (bs.flatMap byteHex).length = 2 * bs.length := by
  induction bs with
  | nil => rfl
  | cons b t ih =>
      simp only [List.flatMap_cons, List.length_append, ih, List.length_cons]
      simp [byteHex]
      omega

/-- The MD5 digest always has sixteen bytes. -/
lemma md5_length (msg : List Nat) : (md5 msg).length = 16 := by
  simp [md5, w32le]

/-- Every character produced by hexChar is a lowercase hex digit. -/
lemma hexChar_isHex (n : Nat) : isHexDigitChar (hexChar n) = true := by
  have h : n % 16 < 16 := Nat.mod_lt _ (by decide)
  unfold hexChar
  generalize n % 16 = m at h ⊢
  interval_cases m <;> decide

end FileStorageService

namespace SQLDatabaseService

/-- When the first k attempts raise retryable errors and attempt k (with at
most n retries budgeted) succeeds with a, the retry loop returns a. -/
lemma retryGo_ok_of_first_success {α : Type} (f : Nat → Except DBError α)
    (a : α) : ∀ (k n i : Nat), k ≤ n → f (i + k) = Except.ok a →
    (∀ j, j < k → ∃ e, f (i + j) = Except.error e ∧
      should_retry_on_exception e = true) →
    retryGo f n i = Except.ok a := by
  intro k
  induction k with
  | zero =>
      intro n i _ hok _
      rw [Nat.add_zero] at hok
      cases n with
      | zero => simpa [retryGo] using hok
      | succ m => simp [retryGo, hok]
  | succ k ih =>
      intro n i hkn hok hfail
      obtain ⟨m, rfl⟩ : ∃ m, n = m + 1 := ⟨n - 1, by omega⟩
      obtain ⟨e, he, hre⟩ := hfail 0 (Nat.succ_pos k)
      rw [Nat.add_zero] at he
      rw [retryGo, he]
      simp only [hre, if_true]
      exact ih m (i + 1) (by omega)
        (by rw [show i + 1 + k = i + (k + 1) by omega]; exact hok)
        (fun j hj => by
          rw [show i + 1 + j = i + (j + 1) by omega]
          exact hfail (j + 1) (by omega))

/-- When every attempt through index i + n raises a retryable error, the
retry loop surfaces the error of the final attempt. -/
lemma retryGo_error_of_all_fail {α : Type} (f : Nat → Except DBError α)
    (e : Nat → DBError) : ∀ (n i : Nat),
    (∀ j, j ≤ n → f (i + j) = Except.error (e (i + j)) ∧
      should_retry_on_exception (e (i + j)) = true) →
    retryGo f n i = Except.error (e (i + n)) := by
  intro n
  induction n with
  | zero =>
      intro i h
      have h0 := (h 0 (by omega)).1
      rw [Nat.add_zero] at h0 ⊢
      simpa [retryGo] using h0
  | succ n ih =>
      intro i h
      have h0 := h 0 (by omega)
      rw [Nat.add_zero] at h0
      rw [retryGo, h0.1]
      simp only [h0.2, if_true]
      rw [show i + (n + 1) = i + 1 + n by omega]
      exact ih (i + 1) (fun j hj => by
        rw [show i + 1 + j = i + (j + 1) by omega]
        exact h (j + 1) (by omega))

/-- A non-retryable error on the current attempt is raised immediately. -/
lemma retryGo_error_of_not_retryable {α : Type} (f : Nat → Except DBError α)
    (e₀ : DBError) (n i : Nat) (he : f i = Except.error e₀)
    (hnr : should_retry_on_exception e₀ = false) :
    retryGo f n i = Except.error e₀ := by
  cases n with
  | zero => simpa [retryGo] using he
  | succ m => simp [retryGo, he, hnr]

/-- A connect call that finds a session in the scope slot is a no-op. -/
lemma connect_noop_of_session (eo so : Bool) (inst : SqlInstance)
    (ctx : TaskCtx) (h : ctx.session.isSome = true) :
    connect eo so inst ctx = ⟨false, inst, ctx⟩ := by
  simp [connect, h]

/-- A connect call that does not raise leaves a session in the scope slot. -/
lemma connect_session_isSome (eo so : Bool) (inst : SqlInstance)
    (ctx : TaskCtx) (h : (connect eo so inst ctx).raised = false) :
    ((connect eo so inst ctx).ctx).session.isSome = true := by
  by_cases hs : ctx.session.isSome
  · rw [connect_noop_of_session eo so inst ctx hs]
    exact hs
  · simp only [connect, hs, if_false, Bool.false_eq_true] at h ⊢
    by_cases hb : (inst.engine.isNone || !inst.hasMaker) = true
    · simp only [hb, if_true] at h ⊢
      cases heo : eo with
      | false => simp [heo] at h
      | true =>
          simp only [heo] at h ⊢
          cases hso : so with
          | false => simp [hso] at h
          | true => simp [hso, mkSession]
    · simp only [hb, if_false] at h ⊢
      cases hso : so with
      | false => simp [hso] at h
      | true => simp [hso, mkSession]

/-- The slot is always empty right after disconnect_session. -/
lemma disconnect_session_clears (ctx : TaskCtx) :
    (disconnect_session ctx).session = none := by
  cases h : ctx.session with
  | none => simp [disconnect_session, h]
  | some sid => simp [disconnect_session, h]

end SQLDatabaseService

/- ----------------------------------------------------------------- -/
/- Claim statements                                                  -/
/- ----------------------------------------------------------------- -/

/-- The storage-path formula exactly as the claim words it: two shard
directories, the full id, then a dot plus the extension with leading
separators stripped whenever an extension is given, and no suffix when the
extension is absent. Written from the claim text for comparison with the
source definition. -/
def claimedStoragePath (file_id : String) (extension : Option String) : String :=
  match extension with
  | some e =>
      pySlice file_id 0 3 ++ "/" ++ pySlice file_id 3 6 ++ "/" ++ file_id
        ++ ("." ++ lstripDots e)
  | none => pySlice file_id 0 3 ++ "/" ++ pySlice file_id 3 6 ++ "/" ++ file_id

/-- The amended storage-path formula: as claimed, except that an extension
that is the empty string also produces no suffix, because the source guards
the suffix with a Python truthiness test on the extension. -/
def amendedStoragePath (file_id : String) (extension : Option String) : String :=
  match extension with
  | some e =>
      if e = "" then pySlice file_id 0 3 ++ "/" ++ pySlice file_id 3 6 ++ "/" ++ file_id
      else pySlice file_id 0 3 ++ "/" ++ pySlice file_id 3 6 ++ "/" ++ file_id
        ++ ("." ++ lstripDots e)
  | none => pySlice file_id 0 3 ++ "/" ++ pySlice file_id 3 6 ++ "/" ++ file_id

/-- C1: upload_file does compute the id with compute_file_id and does call
upload_file_with_id on it, and on a fresh local-filesystem backend that call
succeeds (the write lands, with boolean result true); but upload_file drops
that boolean and returns Python None, contradicting its own bool return
annotation and its docstring, so the composed call never returns true. This
theorem evaluates both the inner call and upload_file on the same fresh
store, exhibiting the divergence for every file and extension. -/
theorem upload_file_returns_none_not_bool (root : String) (file : List Nat)
    (extension : Option String) :
    LocalFileStorageService.upload_file_with_id false false root []
        (FileStorageService.compute_file_id file) file extension
      = Except.ok (true,
          [(pathJoin root (FileStorageService.get_storage_path
              (FileStorageService.compute_file_id file) extension), file)]) ∧
    FileStorageService.upload_file
        (LocalFileStorageService.upload_file_with_id false false root [])
        file extension
      = Except.ok (none,
          [(pathJoin root (FileStorageService.get_storage_path
              (FileStorageService.compute_file_id file) extension), file)]) := by
  constructor
  · simp [LocalFileStorageService.upload_file_with_id, List.lookup]
  · simp [FileStorageService.upload_file,
      LocalFileStorageService.upload_file_with_id, List.lookup]

/-- C4 counterexample: with the extension present but equal to the empty
string, the source path has no suffix while the claimed formula appends a
bare dot, so the claimed equation fails at this input. -/
theorem storage_path_empty_extension_counterexample :
    FileStorageService.get_storage_path "b1946ac92492d2347c6235b4d2611184"
        (some "")
      ≠ claimedStoragePath "b1946ac92492d2347c6235b4d2611184" (some "") := by
  decide

/-- C4 amended: compute_file_id is a pure function whose value is always a
32-character string of lowercase hex digits (a 128-bit identifier), and
get_storage_path equals the claimed shard formula amended only at the empty
extension, which produces no suffix exactly like an absent one; both are
total, so no error condition exists. -/
theorem content_addresser_shape_amended :
    (∀ file : List Nat,
      (FileStorageService.compute_file_id file).data.length = 32 ∧
      ∀ c ∈ (FileStorageService.compute_file_id file).data,
        FileStorageService.isHexDigitChar c = true) ∧
    (∀ (file_id : String) (extension : Option String),
      FileStorageService.get_storage_path file_id extension
        = amendedStoragePath file_id extension) := by
  constructor
  · intro file
    constructor
    · show ((FileStorageService.md5 file).flatMap FileStorageService.byteHex).length = 32
      rw [FileStorageService.length_flatMap_byteHex, FileStorageService.md5_length]
    · intro c hc
      have hc' : c ∈ (FileStorageService.md5 file).flatMap FileStorageService.byteHex := hc
      rw [List.mem_flatMap] at hc'
      obtain ⟨b, _, hcb⟩ := hc'
      simp only [FileStorageService.byteHex, List.mem_cons,
        List.not_mem_nil, or_false] at hcb
      rcases hcb with h | h <;> rw [h] <;> exact FileStorageService.hexChar_isHex _
  · intro file_id extension
    cases extension with
    | none =>
        simp [FileStorageService.get_storage_path, amendedStoragePath,
          strAppend_empty]
    | some e =>
        by_cases he : e = ""
        · simp [FileStorageService.get_storage_path, amendedStoragePath, he,
            strAppend_empty]
        · simp [FileStorageService.get_storage_path, amendedStoragePath, he]

/-- C4 witness: the amended theorem applied at a concrete byte list and a
concrete id and extension. -/
theorem content_addresser_shape_amended_witness :
    (FileStorageService.compute_file_id [104, 105]).data.length = 32 ∧
    FileStorageService.get_storage_path "abcdef123456" (some "txt")
      = amendedStoragePath "abcdef123456" (some "txt") :=
  ⟨(content_addresser_shape_amended.1 [104, 105]).1,
    content_addresser_shape_amended.2 "abcdef123456" (some "txt")⟩

/-- C6: the connection retry loop does succeed when the fifth attempt
succeeds, and with an S3 backend a fresh upload then completes with true;
but the same scenario on the SFTP backend still returns false on a fresh
store, because upload_file_with_id tests the truthy un-awaited coroutine
returned by exists and bails out as if the file existed. When all five
attempts fail, both backends raise and write nothing. This theorem
evaluates the code at those inputs. -/
theorem sftp_connection_retry_success_upload_still_false :
    connectionEstablished [false, false, false, false, true] = true ∧
    S3FileStorageService.upload_file_with_id [false, false, false, false, true]
        false false "" [] "abcdef99" [7] (some "txt")
      = Except.ok (true, [("abc/def/abcdef99.txt", [7])]) ∧
    SFTPFileStorageService.upload_file_with_id
        [false, false, false, false, true] [] "abcdef99" [7] (some "txt")
      = Except.ok (false, []) ∧
    S3FileStorageService.upload_file_with_id
        [false, false, false, false, false] false false "" [] "abcdef99" [7]
        (some "txt")
      = Except.error () ∧
    SFTPFileStorageService.upload_file_with_id
        [false, false, false, false, false] [] "abcdef99" [7] (some "txt")
      = Except.error () := by
  refine ⟨rfl, ?_, rfl, rfl, rfl⟩
  rfl

/-- C2 counterexample: upload_file_with_id can raise. On the GCS backend a
connection phase whose five attempts all fail propagates out of the call
(ensure_connection sits outside the try block), and on the local backend a
directory-creation error propagates (mkdir sits outside the try block); in
both cases the call raises instead of resolving to a boolean. -/
theorem upload_file_with_id_can_raise_counterexample :
    GCSFileStorageService.upload_file_with_id
        [false, false, false, false, false] false false "" []
        "deadbeef00" [1] (some "txt")
      = Except.error () ∧
    LocalFileStorageService.upload_file_with_id true false "/data" []
        "deadbeef00" [1] (some "txt")
      = Except.error () :=
  ⟨rfl, rfl⟩

/-- C2 amended: once the connection phase has succeeded (for the local
backend, once directory creation has succeeded), upload_file_with_id on
every backend variant resolves to a boolean rather than raising, and an I/O
failure during the write attempt itself is caught and converted to false;
what can still raise are the connection-establishment failures after
exhausted retries (remote backends) and the local directory-creation
errors, which run outside the protected region. -/
theorem upload_file_with_id_resolves_to_bool_after_connection :
    (∀ (w : Bool) (root : String) (store : Store) (file_id : String)
        (file : List Nat) (extension : Option String),
      (∃ b st, LocalFileStorageService.upload_file_with_id false w root store
          file_id file extension = Except.ok (b, st)) ∧
      (w = true → LocalFileStorageService.upload_file_with_id false w root
          store file_id file extension = Except.ok (false, store))) ∧
    (∀ (t : List Bool) (lr pr : Bool) (root : String) (store : Store)
        (file_id : String) (file : List Nat) (extension : Option String),
      connectionEstablished t = true →
      (∃ b st, S3FileStorageService.upload_file_with_id t lr pr root store
          file_id file extension = Except.ok (b, st)) ∧
      (pr = true → S3FileStorageService.upload_file_with_id t lr pr root
          store file_id file extension = Except.ok (false, store))) ∧
    (∀ (t : List Bool) (er ur : Bool) (root : String) (store : Store)
        (file_id : String) (file : List Nat) (extension : Option String),
      connectionEstablished t = true →
      (∃ b st, GCSFileStorageService.upload_file_with_id t er ur root store
          file_id file extension = Except.ok (b, st)) ∧
      (ur = true → GCSFileStorageService.upload_file_with_id t er ur root
          store file_id file extension = Except.ok (false, store))) ∧
    (∀ (t : List Bool) (store : Store) (file_id : String) (file : List Nat)
        (extension : Option String),
      connectionEstablished t = true →
      SFTPFileStorageService.upload_file_with_id t store file_id file
        extension = Except.ok (false, store)) := by
  refine ⟨?_, ?_, ?_, ?_⟩
  · intro w root store file_id file extension
    by_cases hx : (store.lookup (pathJoin root
        (FileStorageService.get_storage_path file_id extension))).isSome
    · exact ⟨⟨false, store,
        by simp [LocalFileStorageService.upload_file_with_id, hx]⟩,
        fun _ => by simp [LocalFileStorageService.upload_file_with_id, hx]⟩
    · cases w with
      | false => exact ⟨⟨true, (pathJoin root
          (FileStorageService.get_storage_path file_id extension), file)
            :: store,
          by simp [LocalFileStorageService.upload_file_with_id, hx]⟩,
          fun h => by cases h⟩
      | true => exact ⟨⟨false, store,
          by simp [LocalFileStorageService.upload_file_with_id, hx]⟩,
          fun _ => by simp [LocalFileStorageService.upload_file_with_id, hx]⟩
  · intro t lr pr root store file_id file extension hconn
    cases lr with
    | true => exact ⟨⟨false, store,
        by simp [S3FileStorageService.upload_file_with_id, hconn]⟩,
        fun _ => by simp [S3FileStorageService.upload_file_with_id, hconn]⟩
    | false =>
        by_cases hx : (store.lookup (pathJoin root
            (FileStorageService.get_storage_path file_id extension))).isSome
        · exact ⟨⟨false, store,
            by simp [S3FileStorageService.upload_file_with_id, hconn, hx]⟩,
            fun _ =>
              by simp [S3FileStorageService.upload_file_with_id, hconn, hx]⟩
        · cases pr with
          | false => exact ⟨⟨true, (pathJoin root
              (FileStorageService.get_storage_path file_id extension), file)
                :: store,
              by simp [S3FileStorageService.upload_file_with_id, hconn, hx]⟩,
              fun h => by cases h⟩
          | true => exact ⟨⟨false, store,
              by simp [S3FileStorageService.upload_file_with_id, hconn, hx]⟩,
              fun _ => by
                simp [S3FileStorageService.upload_file_with_id, hconn, hx]⟩
  · intro t er ur root store file_id file extension hconn
    cases er with
    | true => exact ⟨⟨false, store,
        by simp [GCSFileStorageService.upload_file_with_id, hconn]⟩,
        fun _ => by simp [GCSFileStorageService.upload_file_with_id, hconn]⟩
    | false =>
        by_cases hx : (store.lookup (pathJoin root
            (FileStorageService.get_storage_path file_id extension))).isSome
        · exact ⟨⟨false, store,
            by simp [GCSFileStorageService.upload_file_with_id, hconn, hx]⟩,
            fun _ =>
              by simp [GCSFileStorageService.upload_file_with_id, hconn, hx]⟩
        · cases ur with
          | false => exact ⟨⟨true, (pathJoin root
              (FileStorageService.get_storage_path file_id extension), file)
                :: store,
              by simp [GCSFileStorageService.upload_file_with_id, hconn, hx]⟩,
              fun h => by cases h⟩
          | true => exact ⟨⟨false, store,
              by simp [GCSFileStorageService.upload_file_with_id, hconn, hx]⟩,
              fun _ => by
                simp [GCSFileStorageService.upload_file_with_id, hconn, hx]⟩
  · intro t store file_id file extension hconn
    simp [SFTPFileStorageService.upload_file_with_id, hconn]

/-- C2 amended witness: the amended theorem applied to each backend at
concrete inputs, with the connection hypotheses discharged by evaluation. -/
theorem upload_file_with_id_resolves_to_bool_after_connection_witness :
    (∃ b st, LocalFileStorageService.upload_file_with_id false true "/r" []
        "aabbcc" [1] none = Except.ok (b, st)) ∧
    (∃ b st, S3FileStorageService.upload_file_with_id [true] false false ""
        [] "aabbcc" [1] none = Except.ok (b, st)) ∧
    (∃ b st, GCSFileStorageService.upload_file_with_id [true] false false ""
        [] "aabbcc" [1] none = Except.ok (b, st)) ∧
    SFTPFileStorageService.upload_file_with_id [true] [] "aabbcc" [1] none
      = Except.ok (false, []) :=
  ⟨(upload_file_with_id_resolves_to_bool_after_connection.1 true "/r" []
      "aabbcc" [1] none).1,
   (upload_file_with_id_resolves_to_bool_after_connection.2.1 [true] false
      false "" [] "aabbcc" [1] none (by decide)).1,
   (upload_file_with_id_resolves_to_bool_after_connection.2.2.1 [true] false
      false "" [] "aabbcc" [1] none (by decide)).1,
   upload_file_with_id_resolves_to_bool_after_connection.2.2.2 [true] []
      "aabbcc" [1] none (by decide)⟩

/-- C3: on every backend variant, when content is already stored at the path
computed from the id and extension, upload_file_with_id resolves to false
and the store is returned unchanged, so the existing content is preserved;
for the remote variants this holds whenever the connection phase succeeds,
and for the local variant whenever directory creation does not raise (the
parent directories of an existing file already exist). -/
theorem no_overwrite_invariant (root : String) (store : Store)
    (file_id : String) (file content : List Nat) (extension : Option String)
    (t : List Bool) (w lr pr er ur : Bool)
    (hex : store.lookup (pathJoin root
      (FileStorageService.get_storage_path file_id extension)) = some content)
    (hconn : connectionEstablished t = true) :
    LocalFileStorageService.upload_file_with_id false w root store file_id
        file extension = Except.ok (false, store) ∧
    S3FileStorageService.upload_file_with_id t lr pr root store file_id file
        extension = Except.ok (false, store) ∧
    GCSFileStorageService.upload_file_with_id t er ur root store file_id
        file extension = Except.ok (false, store) ∧
    SFTPFileStorageService.upload_file_with_id t store file_id file
        extension = Except.ok (false, store) := by
  have hx : (store.lookup (pathJoin root
      (FileStorageService.get_storage_path file_id extension))).isSome = true := by
    rw [hex]; rfl
  refine ⟨?_, ?_, ?_, ?_⟩
  · simp [LocalFileStorageService.upload_file_with_id, hx]
  · simp only [S3FileStorageService.upload_file_with_id, hconn,
      Bool.not_true, Bool.false_eq_true, if_false]
    cases lr with
    | true => rfl
    | false => simp [hx]
  · simp only [GCSFileStorageService.upload_file_with_id, hconn,
      Bool.not_true, Bool.false_eq_true, if_false]
    cases er with
    | true => rfl
    | false => simp [hx]
  · simp [SFTPFileStorageService.upload_file_with_id, hconn]

/-- C3 witness: the no-overwrite theorem at a store that already holds
content at the computed path, all hypotheses discharged by evaluation. -/
theorem no_overwrite_invariant_witness :
    LocalFileStorageService.upload_file_with_id false false ""
        [("abc/def/abcdef99.txt", [5])] "abcdef99" [7] (some "txt")
      = Except.ok (false, [("abc/def/abcdef99.txt", [5])]) ∧
    S3FileStorageService.upload_file_with_id [true] false false ""
        [("abc/def/abcdef99.txt", [5])] "abcdef99" [7] (some "txt")
      = Except.ok (false, [("abc/def/abcdef99.txt", [5])]) ∧
    GCSFileStorageService.upload_file_with_id [true] false false ""
        [("abc/def/abcdef99.txt", [5])] "abcdef99" [7] (some "txt")
      = Except.ok (false, [("abc/def/abcdef99.txt", [5])]) ∧
    SFTPFileStorageService.upload_file_with_id [true]
        [("abc/def/abcdef99.txt", [5])] "abcdef99" [7] (some "txt")
      = Except.ok (false, [("abc/def/abcdef99.txt", [5])]) :=
  no_overwrite_invariant "" [("abc/def/abcdef99.txt", [5])] "abcdef99" [7]
    [5] (some "txt") [true] false false false false false (by decide)
    (by decide)

/-- C9: on the local-filesystem backend, whenever upload_file_with_id
returns true the resulting store answers true to an exists check on the
storage path computed from the same id and extension; and exists on a path
that was never written returns false, is a total function of the store
(raises nothing) and returns no modified store (no side effects). -/
theorem local_upload_exists_roundtrip (mk w : Bool) (root : String)
    (store st' : Store) (file_id : String) (file : List Nat)
    (extension : Option String) :
    (LocalFileStorageService.upload_file_with_id mk w root store file_id
        file extension = Except.ok (true, st') →
      LocalFileStorageService.fileExists root st'
        (FileStorageService.get_storage_path file_id extension) = true) ∧
    (∀ p, store.lookup (pathJoin root p) = none →
      LocalFileStorageService.fileExists root store p = false) := by
  constructor
  · intro h
    simp only [LocalFileStorageService.upload_file_with_id] at h
    by_cases hmk : mk = true
    · simp [hmk] at h
    · simp only [hmk, Bool.false_eq_true, if_false] at h
      by_cases hx : (store.lookup (pathJoin root
          (FileStorageService.get_storage_path file_id extension))).isSome
      · simp [hx] at h
      · simp only [hx, Bool.false_eq_true, if_false] at h
        by_cases hw : w = true
        · simp [hw] at h
        · simp only [hw, Bool.false_eq_true, if_false, Except.ok.injEq,
            Prod.mk.injEq, true_and] at h
          rw [LocalFileStorageService.fileExists, ← h]
          simp [List.lookup]
  · intro p hp
    simp [LocalFileStorageService.fileExists, hp]

/-- C9 witness: a concrete upload on an empty store followed by the exists
check, and an exists check on a never-written path, via the round-trip
theorem. -/
theorem local_upload_exists_roundtrip_witness :
    LocalFileStorageService.fileExists "/srv"
        [("/srv/abc/def/abcdef99.txt", [1, 2])]
        (FileStorageService.get_storage_path "abcdef99" (some "txt")) = true ∧
    LocalFileStorageService.fileExists "/srv" [] "zzz" = false :=
  ⟨(local_upload_exists_roundtrip false false "/srv" []
      [("/srv/abc/def/abcdef99.txt", [1, 2])] "abcdef99" [1, 2]
      (some "txt")).1 rfl,
   (local_upload_exists_roundtrip false false "/srv" [] [] "abcdef99" [1, 2]
      (some "txt")).2 "zzz" rfl⟩

/-- C5: for every attempt-outcome function f of a database operation body
(execute, add, add_all, delete, commit, rollback, refresh are each the
retry_on_db_errors wrapper around a full-replay body), the wrapper returns
the first success within five attempts when the attempts before it raised
transient errors; when all five attempts raise transient errors it
re-raises the final error to the caller (reraise, never a boolean false);
a non-transient error is raised at once; and the transient class is exactly
connection and OS errors plus DBAPI errors whose message mentions the two
pgbouncer prepared-statement failures. -/
theorem db_retry_policy_characterization {α : Type}
    (f : Nat → Except DBError α) :
    (∀ (a : α) (k : Nat), k < 5 → f k = Except.ok a →
      (∀ j, j < k → ∃ e, f j = Except.error e ∧
        SQLDatabaseService.should_retry_on_exception e = true) →
      SQLDatabaseService.retry_on_db_errors f = Except.ok a) ∧
    (∀ e : Nat → DBError,
      (∀ j, j < 5 → f j = Except.error (e j) ∧
        SQLDatabaseService.should_retry_on_exception (e j) = true) →
      SQLDatabaseService.retry_on_db_errors f = Except.error (e 4)) ∧
    (∀ e₀, f 0 = Except.error e₀ →
      SQLDatabaseService.should_retry_on_exception e₀ = false →
      SQLDatabaseService.retry_on_db_errors f = Except.error e₀) ∧
    (∀ e, SQLDatabaseService.should_retry_on_exception e = true ↔
      (e = DBError.operational ∨ e = DBError.os ∨
        ∃ m, e = DBError.dbapi m ∧
          (strContains m "DuplicatePreparedStatementError" = true ∨
            strContains m "InvalidSQLStatementNameError" = true))) := by
  refine ⟨?_, ?_, ?_, ?_⟩
  · intro a k hk hok hfail
    exact SQLDatabaseService.retryGo_ok_of_first_success f a k 4 0 (by omega)
      (by simpa using hok) (fun j hj => by simpa using hfail j hj)
  · intro e h
    have := SQLDatabaseService.retryGo_error_of_all_fail f e 4 0
      (fun j hj => by simpa using h j (by omega))
    simpa using this
  · intro e₀ he hnr
    exact SQLDatabaseService.retryGo_error_of_not_retryable f e₀ 4 0 he hnr
  · intro e
    cases e with
    | operational => simp [SQLDatabaseService.should_retry_on_exception]
    | os => simp [SQLDatabaseService.should_retry_on_exception]
    | dbapi m => simp [SQLDatabaseService.should_retry_on_exception]
    | other => simp [SQLDatabaseService.should_retry_on_exception]

/-- C5 witness: the characterization applied to three concrete attempt
traces: two transient connection errors then success, persistent OS errors
through all five attempts, and an immediate non-transient error. -/
theorem db_retry_policy_characterization_witness :
    SQLDatabaseService.retry_on_db_errors
        (fun i => if i < 2 then Except.error DBError.operational
          else Except.ok 7)
      = Except.ok 7 ∧
    SQLDatabaseService.retry_on_db_errors
        (fun _ => (Except.error DBError.os : Except DBError Nat))
      = Except.error DBError.os ∧
    SQLDatabaseService.retry_on_db_errors
        (fun _ => (Except.error DBError.other : Except DBError Nat))
      = Except.error DBError.other :=
  ⟨(db_retry_policy_characterization _).1 7 2 (by omega) rfl
      (fun j hj => ⟨DBError.operational, by interval_cases j <;>
        exact ⟨rfl, rfl⟩⟩),
   (db_retry_policy_characterization _).2.1 (fun _ => DBError.os)
      (fun j _ => ⟨rfl, rfl⟩),
   (db_retry_policy_characterization _).2.2.1 DBError.other rfl rfl⟩

/-- C7: connect is idempotent: with a session in the current scope it is a
no-op, and a successful connect followed by any second connect leaves
everything unchanged; the engine is built only when absent (an instance
whose engine and session factory exist keeps them untouched), the first
successful build stores the configured engine arguments, whose defaults are
the bounded pool (size 5, overflow 0, pre-ping on, recycle 900 seconds);
and a successful connect from an empty slot stores a fresh session there. -/
theorem connect_idempotent_engine_once (eo so eo' so' : Bool)
    (inst : SQLDatabaseService.SqlInstance) (ctx : SQLDatabaseService.TaskCtx) :
    (ctx.session.isSome = true →
      SQLDatabaseService.connect eo so inst ctx = ⟨false, inst, ctx⟩) ∧
    (∀ r, SQLDatabaseService.connect eo so inst ctx = r →
      r.raised = false →
      SQLDatabaseService.connect eo' so' r.inst r.ctx
        = ⟨false, r.inst, r.ctx⟩) ∧
    (inst.engine.isSome = true → inst.hasMaker = true →
      (SQLDatabaseService.connect eo so inst ctx).inst = inst) ∧
    (ctx.session = none → inst.engine = none →
      (SQLDatabaseService.connect eo so inst ctx).raised = false →
      (SQLDatabaseService.connect eo so inst ctx).inst.engine
        = some inst.args) ∧
    (ctx.session = none →
      (SQLDatabaseService.connect eo so inst ctx).raised = false →
      (SQLDatabaseService.connect eo so inst ctx).ctx.session
        = some ctx.nextId) ∧
    SQLDatabaseService.initEngineArgs none none none none = ⟨5, 0, true, 900⟩ := by
  refine ⟨?_, ?_, ?_, ?_, ?_, rfl⟩
  · exact SQLDatabaseService.connect_noop_of_session eo so inst ctx
  · intro r hr hok
    subst hr
    exact SQLDatabaseService.connect_noop_of_session eo' so' _ _
      (SQLDatabaseService.connect_session_isSome eo so inst ctx hok)
  · intro he hm
    by_cases hs : ctx.session.isSome
    · rw [SQLDatabaseService.connect_noop_of_session eo so inst ctx hs]
    · obtain ⟨a, ha⟩ := Option.isSome_iff_exists.mp he
      cases so <;>
        simp [SQLDatabaseService.connect, hs, ha, hm]
  · intro hs he hok
    simp only [SQLDatabaseService.connect, hs, Option.isSome_none,
      Bool.false_eq_true, if_false, he, Option.isNone_none, Bool.true_or,
      if_true] at hok ⊢
    cases eo with
    | false => simp at hok
    | true =>
        cases so with
        | false => simp at hok
        | true => simp
  · intro hs hok
    simp only [SQLDatabaseService.connect, hs, Option.isSome_none,
      Bool.false_eq_true, if_false] at hok ⊢
    by_cases hb : (inst.engine.isNone || !inst.hasMaker) = true
    · simp only [hb, if_true] at hok ⊢
      cases eo with
      | false => simp at hok
      | true =>
          cases so with
          | false => simp at hok
          | true => simp [SQLDatabaseService.mkSession]
    · simp only [hb, Bool.false_eq_true, if_false] at hok ⊢
      cases so with
      | false => simp at hok
      | true => simp [SQLDatabaseService.mkSession]

/-- C7 witness: a first connect from a fresh instance and empty scope builds
the engine and stores session 0; the second connect on the resulting state
is a no-op, via the idempotence conjunct applied to the concrete result. -/
theorem connect_idempotent_engine_once_witness :
    SQLDatabaseService.connect true true
        ⟨⟨5, 0, true, 900⟩, some ⟨5, 0, true, 900⟩, true⟩ ⟨some 0, [], 1⟩
      = ⟨false, ⟨⟨5, 0, true, 900⟩, some ⟨5, 0, true, 900⟩, true⟩,
          ⟨some 0, [], 1⟩⟩ :=
  (connect_idempotent_engine_once true true true true
      ⟨⟨5, 0, true, 900⟩, none, false⟩ ⟨none, [], 0⟩).2.1
    ⟨false, ⟨⟨5, 0, true, 900⟩, some ⟨5, 0, true, 900⟩, true⟩,
      ⟨some 0, [], 1⟩⟩ rfl rfl

/-- C8: disconnect_session with an active session closes it and clears only
the scope slot (the closed list records the closure; the counter, and the
instance with its engine and session factory, are untouched); with no
active session it is exactly the identity, raising nothing; and the async
context exit calls it on every exit path, whatever exception information
is passed, so the slot is always empty after scope exit and the instance
state survives unchanged. -/
theorem disconnect_session_scope_frame (ctx : SQLDatabaseService.TaskCtx)
    (inst : SQLDatabaseService.SqlInstance) (exc : Option Unit) :
    (∀ sid, ctx.session = some sid →
      SQLDatabaseService.disconnect_session ctx
        = ⟨none, sid :: ctx.closed, ctx.nextId⟩) ∧
    (ctx.session = none →
      SQLDatabaseService.disconnect_session ctx = ctx) ∧
    (SQLDatabaseService.aexit exc inst ctx).1 = inst ∧
    (SQLDatabaseService.aexit exc inst ctx).2
      = SQLDatabaseService.disconnect_session ctx ∧
    ((SQLDatabaseService.aexit exc inst ctx).2).session = none := by
  refine ⟨?_, ?_, rfl, rfl, SQLDatabaseService.disconnect_session_clears ctx⟩
  · intro sid h
    simp [SQLDatabaseService.disconnect_session, h]
  · intro h
    simp [SQLDatabaseService.disconnect_session, h]

/-- C8 witness: the frame theorem applied to a scope holding session 3. -/
theorem disconnect_session_scope_frame_witness :
    SQLDatabaseService.disconnect_session ⟨some 3, [], 4⟩ = ⟨none, [3], 4⟩ :=
  (disconnect_session_scope_frame ⟨some 3, [], 4⟩
    ⟨⟨5, 0, true, 900⟩, none, false⟩ none).1 3 rfl

/-- C10: the session slot is the class-level context variable shared by all
instances: after any instance connects successfully, connect on a different
instance (any flags, any configuration) is a no-op that builds nothing, and
get_session on the other instance reads the very same slot, returning the
first instance's session; the slot is per logical task, never per service
instance. -/
theorem session_ctx_class_level_shared (eo so eo' so' : Bool)
    (instA instB : SQLDatabaseService.SqlInstance)
    (ctx : SQLDatabaseService.TaskCtx) (r : SQLDatabaseService.ConnectResult)
    (h : SQLDatabaseService.connect eo so instA ctx = r)
    (hok : r.raised = false) :
    SQLDatabaseService.connect eo' so' instB r.ctx = ⟨false, instB, r.ctx⟩ ∧
    SQLDatabaseService.get_session instB r.ctx
      = SQLDatabaseService.get_session instA r.ctx ∧
    (SQLDatabaseService.get_session instB r.ctx).isSome = true := by
  subst h
  have hs := SQLDatabaseService.connect_session_isSome eo so instA ctx hok
  exact ⟨SQLDatabaseService.connect_noop_of_session eo' so' instB _ hs,
    rfl, hs⟩

/-- C10 witness: instance A connects from an empty scope; connect on a
differently configured instance B is then a no-op and B reads A's session. -/
theorem session_ctx_class_level_shared_witness :
    SQLDatabaseService.connect true true ⟨⟨3, 1, false, 100⟩, none, false⟩
        ⟨some 0, [], 1⟩
      = ⟨false, ⟨⟨3, 1, false, 100⟩, none, false⟩, ⟨some 0, [], 1⟩⟩ ∧
    SQLDatabaseService.get_session ⟨⟨3, 1, false, 100⟩, none, false⟩
        ⟨some 0, [], 1⟩
      = SQLDatabaseService.get_session
          ⟨⟨5, 0, true, 900⟩, some ⟨5, 0, true, 900⟩, true⟩
          ⟨some 0, [], 1⟩ :=
  ⟨(session_ctx_class_level_shared true true true true
      ⟨⟨5, 0, true, 900⟩, none, false⟩ ⟨⟨3, 1, false, 100⟩, none, false⟩
      ⟨none, [], 0⟩
      ⟨false, ⟨⟨5, 0, true, 900⟩, some ⟨5, 0, true, 900⟩, true⟩,
        ⟨some 0, [], 1⟩⟩ rfl rfl).1,
   (session_ctx_class_level_shared true true true true
      ⟨⟨5, 0, true, 900⟩, none, false⟩ ⟨⟨3, 1, false, 100⟩, none, false⟩
      ⟨none, [], 0⟩
      ⟨false, ⟨⟨5, 0, true, 900⟩, some ⟨5, 0, true, 900⟩, true⟩,
        ⟨some 0, [], 1⟩⟩ rfl rfl).2.1⟩

end PyFastapiTemplate
